import Mathlib

/-!
Verification of PyBeam-QA's CT analysis pipeline, a shallow embedding of
`src/core/analysis/ct.py` and `src/ui/linac_qa/ct_widgets.py`.

The embedding keeps the source's names and control flow: the worker's
`analyze` is a function from the external pylinac calls (abstracted as an
environment of fallible operations) to the ordered list of emitted Qt
signals plus the final outcome; the summary and plot builders are direct
translations of the corresponding methods; Python exceptions are an
explicit `Except` channel; numbers are exact rationals.
-/

set_option linter.unusedVariables false

/-- A summary row as built by `QCTAnalysisWorker.analyze`: a Python list of
strings. The code only ever appends two-element lists `[label, value]`. -/
abbrev Row := List String

/-- The blank separator row `["", ""]` appended between module blocks. -/
def blankRow : Row := ["", ""]

/-- Model of a raised Python exception. `traceback.format_exception_only`
returns a non-empty list of lines; keeping the leading lines and the final
line apart makes that non-emptiness structural. -/
structure PyErr where
  firstLines : List String
  lastLine : String
deriving DecidableEq

/-- The list `traceback.format_exception_only(err)` (ct.py line 332). -/
def formatExceptionOnly (e : PyErr) : List String := e.firstLines ++ [e.lastLine]

/-- The expression `traceback.format_exception_only(err)[-1]`: Python's last
element of the formatted representation. -/
def formatExceptionOnlyLast (e : PyErr) : String := (formatExceptionOnly e).getLastD ""

/-- An `AttributeError` raised by accessing a missing attribute. -/
def attributeError (name : String) : PyErr :=
  { firstLines := [], lastLine := "AttributeError: " ++ name }

/-- Python attribute access `obj.name` where the attribute may be missing. -/
def getAttr {α : Type} (name : String) (o : Option α) : Except PyErr α :=
  match o with
  | some a => Except.ok a
  | none => Except.error (attributeError name)

/-- Left-pad a digit string with zeros up to the wanted length. -/
def padZeros (s : String) (len : Nat) : String :=
  String.mk (List.replicate (len - s.length) '0') ++ s

/-- Fixed-point digits of a magnitude already scaled by `10 ^ prec`. -/
def natFixed (n : Nat) (prec : Nat) : String :=
  toString (n / 10 ^ prec) ++ "." ++ padZeros (toString (n % 10 ^ prec)) prec

/-- Model of the Python format specifier `:.{prec}f` on an exact value: the
value `q = num/den` is scaled by `10 ^ prec` and rounded to the nearest
integer with ties to even (the rounding Python's fixed-point float
formatting applies), working on the reduced numerator and denominator so
that `q * 10 ^ prec = scaled/den`, its floor is `fdiv scaled den`, and the
fractional part compares to one half as `2 * rem` against `den`. -/
def formatFixed (q : ℚ) (prec : Nat) : String :=
  let scaled : ℤ := q.num * ((10 ^ prec : ℕ) : ℤ)
  let den : ℤ := (q.den : ℤ)
  let f : ℤ := Int.fdiv scaled den
  let rem : ℤ := scaled - f * den
  let n : ℤ :=
    if 2 * rem < den then f
    else if den < 2 * rem then f + 1
    else if f % 2 = 0 then f else f + 1
  (if q.num < 0 then "-" else "") ++ natFixed n.natAbs prec

/-- The closed `PHANTOM` enumeration of ct.py lines 37-41. -/
inductive PHANTOM where
  | CATPHAN_503
  | CATPHAN_504
  | CATPHAN_600
  | CATPHAN_604
deriving DecidableEq

/-- The `.value` string of each enumeration member. -/
def PHANTOM.value : PHANTOM → String
  | .CATPHAN_503 => "CatPhan 503"
  | .CATPHAN_504 => "CatPhan 504"
  | .CATPHAN_600 => "CatPhan 600"
  | .CATPHAN_604 => "CatPhan 604"

/-- The worker's `phantom_type` argument as a runtime Python value: either a
member of the closed `PHANTOM` enumeration, or some foreign value outside the
enumeration (`nonEnum s`, with `s` standing for the value's string form; such
a value compares unequal to every enumeration member). -/
inductive PhantomTypeVal where
  | member (p : PHANTOM)
  | nonEnum (s : String)
deriving DecidableEq

/-- The string interpolated into the summary header `f"{phantom_type.value}"`. -/
def PhantomTypeVal.value : PhantomTypeVal → String
  | .member p => p.value
  | .nonEnum s => s

/-- The four pylinac CatPhan classes the worker can dispatch to. -/
inductive CatPhanClass where
  | CatPhan503
  | CatPhan504
  | CatPhan600
  | CatPhan604
deriving DecidableEq

/-- The `if/elif/else` phantom dispatch of `QCTAnalysisWorker.analyze`
(ct.py lines 255-265): each enumeration member selects its own class, and the
`else` branch silently defaults to `CatPhan504` (the code comment reads
"Default to CatPhan504"); no branch raises. -/
def resolve_phantom_class : PhantomTypeVal → CatPhanClass
  | .member .CATPHAN_503 => .CatPhan503
  | .member .CATPHAN_504 => .CatPhan504
  | .member .CATPHAN_600 => .CatPhan600
  | .member .CATPHAN_604 => .CatPhan604
  | .nonEnum _ => .CatPhan504

/-- Modelled from the spec: failure value of the spec's registry contract
`resolve(kind) -> AnalyzerFactory`, which "fails with UnsupportedPhantom if
given a value outside the closed enumeration". Used only to contrast the
spec's wording with the code's actual dispatch. -/
inductive UnsupportedPhantom where
  | mk (valueText : String)
deriving DecidableEq

/-- Modelled from the spec: the registry resolution as the spec words it
(section 4.1) — the four kinds map to their factories and anything outside
the enumeration fails with `UnsupportedPhantom`. -/
def registry_resolve_spec : PhantomTypeVal → Except UnsupportedPhantom CatPhanClass
  | .member .CATPHAN_503 => .ok .CatPhan503
  | .member .CATPHAN_504 => .ok .CatPhan504
  | .member .CATPHAN_600 => .ok .CatPhan600
  | .member .CATPHAN_604 => .ok .CatPhan604
  | .nonEnum s => .error (UnsupportedPhantom.mk s)

/-- A ctp404 (HU linearity) ROI: `nominal_val` and `pixel_value` are read by
`qplot_analyzed_image`. -/
structure HURoi where
  nominal_val : ℚ
  pixel_value : ℚ
deriving DecidableEq

/-- A ctp486 (uniformity) ROI: only `pixel_value` is read. -/
structure UniformityRoi where
  pixel_value : ℚ
deriving DecidableEq

/-- A ctp515 (low contrast) ROI: only `contrast` is read. -/
structure LowContrastRoi where
  contrast : ℚ
deriving DecidableEq

/-- The `mtf` attribute of ctp528: parallel lists `mtf` and `lp_mm`. -/
structure MTFData where
  mtf : List ℚ
  lp_mm : List ℚ
deriving DecidableEq

/-- The ctp404 module; `rois` is accessed through `hasattr` in
`qplot_analyzed_image`, so it is optional. -/
structure CTP404 where
  rois : Option (List (String × HURoi))
deriving DecidableEq

/-- The ctp486 module with its optional `rois` mapping position names to ROIs. -/
structure CTP486 where
  rois : Option (List (String × UniformityRoi))
deriving DecidableEq

/-- The ctp528 module with its optional `mtf` data. -/
structure CTP528 where
  mtf : Option MTFData
deriving DecidableEq

/-- The ctp515 module with its optional `rois`. -/
structure CTP515 where
  rois : Option (List (String × LowContrastRoi))
deriving DecidableEq

/-- One entry of `results_data().hu_linearity`: the code reads `values.value`
and `values.nominal` without a presence check, so both are optional here and
reading them goes through `getAttr`. -/
structure LinearityEntry where
  value : Option ℚ
  nominal : Option ℚ
deriving DecidableEq

/-- The external library's `results_data()` object as the summary builder
reads it: every module group is optional (the code guards each with
`hasattr`), dictionaries are association lists in iteration order. -/
structure ResultsData where
  hu_linearity : Option (List (String × LinearityEntry))
  uniformity : Option (List (String × ℚ))
  uniformity_index : Option ℚ
  mtf : Option (List (String × ℚ))
  low_contrast : Option (List (String × ℚ))
  low_contrast_visibility : Option ℚ
deriving DecidableEq

/-- The analyzed phantom object: the four optional CT modules (each guarded
with `hasattr` where the code checks) plus the data its `results_data()`
method returns. -/
structure PhantomObj where
  ctp404 : Option CTP404
  ctp486 : Option CTP486
  ctp528 : Option CTP528
  ctp515 : Option CTP515
  results_data : ResultsData
deriving DecidableEq

/-- The HU-linearity rows of the summary (ct.py lines 288-290): one row per
material other than `background`, reading `values.value` and
`values.nominal` without any presence guard. -/
def hu_linearity_rows : List (String × LinearityEntry) → Except PyErr (List Row)
  | [] => Except.ok []
  | (material, values) :: rest =>
    if material ≠ "background" then
      match getAttr "value" values.value with
      | Except.error e => Except.error e
      | Except.ok v =>
        match getAttr "nominal" values.nominal with
        | Except.error e => Except.error e
        | Except.ok n =>
          match hu_linearity_rows rest with
          | Except.error e => Except.error e
          | Except.ok tail =>
            Except.ok ((["  " ++ material ++ ":",
              formatFixed v 2 ++ " HU (Expected: " ++ formatFixed n 2 ++ " HU)"]) :: tail)
    else hu_linearity_rows rest

/-- The HU-linearity block (ct.py lines 286-290): present only when the data
object has `hu_linearity`; its header row is followed by the material rows. -/
def hu_linearity_block (data : ResultsData) : Except PyErr (List Row) :=
  match data.hu_linearity with
  | none => Except.ok []
  | some entries =>
    match hu_linearity_rows entries with
    | Except.error e => Except.error e
    | Except.ok rows => Except.ok ((["HU Linearity:", ""]) :: rows)

/-- The uniformity block (ct.py lines 295-301): header, one row per ROI
position, then the uniformity-index row when `uniformity_index` is present
(that check is nested inside the `uniformity` check). -/
def uniformity_block (data : ResultsData) : List Row :=
  match data.uniformity with
  | none => []
  | some items =>
    (["HU Uniformity:", ""]) ::
      (items.map (fun pv => ["  " ++ pv.1 ++ ":", formatFixed pv.2 2 ++ " HU"]) ++
        (match data.uniformity_index with
         | some ui => [["Uniformity Index:", formatFixed ui 2]]
         | none => []))

/-- The spatial-resolution block (ct.py lines 306-309): header plus one row
per MTF percentage. -/
def mtf_block (data : ResultsData) : List Row :=
  match data.mtf with
  | none => []
  | some items =>
    (["Spatial Resolution:", ""]) ::
      items.map (fun pl => ["  MTF " ++ pl.1 ++ "%:", formatFixed pl.2 2 ++ " lp/mm"])

/-- The low-contrast block (ct.py lines 314-320): header, one row per
enumerated contrast value, then the visibility row when
`low_contrast_visibility` is present (nested inside the `low_contrast`
check). -/
def low_contrast_block (data : ResultsData) : List Row :=
  match data.low_contrast with
  | none => []
  | some items =>
    (["Low Contrast:", ""]) ::
      ((items.map Prod.snd).enum.map
          (fun ic => ["  ROI " ++ toString (ic.1 + 1) ++ ":", formatFixed ic.2 4]) ++
        (match data.low_contrast_visibility with
         | some v => [["Low Contrast Visibility:", formatFixed v 4]]
         | none => []))

/-- The `summary_text` construction of `QCTAnalysisWorker.analyze` (ct.py
lines 276-320): the phantom-type header, then an unconditional blank row
after the header and after each of the linearity, uniformity and MTF
positions; each module block is empty when its group is absent. Reading a
missing `value`/`nominal` field of a linearity entry raises. -/
def build_summary_text (phantom_type_value : String) (data : ResultsData) :
    Except PyErr (List Row) :=
  match hu_linearity_block data with
  | Except.error e => Except.error e
  | Except.ok lin =>
    Except.ok ((["Phantom Type:", phantom_type_value]) :: blankRow ::
      (lin ++ blankRow ::
        (uniformity_block data ++ blankRow ::
          (mtf_block data ++ blankRow :: low_contrast_block data))))

/-- The four CT module plot areas, in the order both plotting paths visit
them. -/
inductive PlotModule where
  | hu_linearity
  | uniformity
  | mtf
  | low_contrast
deriving DecidableEq

/-- The `ValueError` Python's `min` raises on an empty sequence. -/
def valueErrorEmptyMin : PyErr :=
  { firstLines := [], lastLine := "ValueError: min() arg is an empty sequence" }

/-- The error raised when the function-local name `plt` is referenced before
the `import matplotlib.pyplot as plt` statement (which sits inside the
ctp404 branch of `get_publishable_plots`) has run. -/
def unboundLocalPlt : PyErr :=
  { firstLines := [],
    lastLine := "UnboundLocalError: local variable 'plt' referenced before assignment" }

namespace QCTAnalysis

/-- The uniformity, MTF and low-contrast branches of `qplot_analyzed_image`
(ct.py lines 115-156): each plot area receives data exactly when its module
and the module's inner data attribute (`rois` or `mtf`) are both present;
none of these three branches can raise. -/
def qplot_rest (ph : PhantomObj) : List PlotModule :=
  (match ph.ctp486 with
   | some c => match c.rois with
     | some _ => [PlotModule.uniformity]
     | none => []
   | none => []) ++
  (match ph.ctp528 with
   | some c => match c.mtf with
     | some _ => [PlotModule.mtf]
     | none => []
   | none => []) ++
  (match ph.ctp515 with
   | some c => match c.rois with
     | some _ => [PlotModule.low_contrast]
     | none => []
   | none => [])

/-- `QCTAnalysis.qplot_analyzed_image` (ct.py lines 55-156): all four plot
areas are always created; this model records, in code order, which areas
receive data. A module contributes its plot only when the module and its
inner data attribute are both present (`hasattr` checks). The HU-linearity
branch calls `min`/`max` on the nominal values filtered of `background` and
`air`, so it raises `ValueError` when that filtered list is empty. -/
def qplot_analyzed_image (ph : PhantomObj) : Except PyErr (List PlotModule) :=
  match ph.ctp404 with
  | none => Except.ok (qplot_rest ph)
  | some c =>
    match c.rois with
    | none => Except.ok (qplot_rest ph)
    | some rois =>
      let x_data := (rois.filter
        (fun nr => !(nr.1 == "background" || nr.1 == "air"))).map
        (fun nr => nr.2.nominal_val)
      if x_data.isEmpty then Except.error valueErrorEmptyMin
      else Except.ok ([PlotModule.hu_linearity] ++ qplot_rest ph)

/-- The ctp486 branch of `get_publishable_plots` (ct.py lines 176-194): it
first calls `plt.subplots` — raising when the local `plt` was never assigned
because the ctp404 branch did not run — then reads `ctp486.rois` with no
presence check. -/
def publishable_486 (plt_bound : Bool) (c? : Option CTP486) : Except PyErr (List PlotModule) :=
  match c? with
  | none => Except.ok []
  | some c =>
    if !plt_bound then Except.error unboundLocalPlt
    else
      match getAttr "rois" c.rois with
      | Except.error e => Except.error e
      | Except.ok _ => Except.ok [PlotModule.uniformity]

/-- The ctp528 branch of `get_publishable_plots` (ct.py lines 196-203):
`plot_mtf` is a module method (external), then `plt.savefig` needs the local
`plt`. -/
def publishable_528 (plt_bound : Bool) (c? : Option CTP528) : Except PyErr (List PlotModule) :=
  match c? with
  | none => Except.ok []
  | some _ =>
    if !plt_bound then Except.error unboundLocalPlt
    else Except.ok [PlotModule.mtf]

/-- The ctp515 branch of `get_publishable_plots` (ct.py lines 205-227):
`plt.subplots` first, then the unguarded read of `ctp515.rois`. -/
def publishable_515 (plt_bound : Bool) (c? : Option CTP515) : Except PyErr (List PlotModule) :=
  match c? with
  | none => Except.ok []
  | some c =>
    if !plt_bound then Except.error unboundLocalPlt
    else
      match getAttr "rois" c.rois with
      | Except.error e => Except.error e
      | Except.ok _ => Except.ok [PlotModule.low_contrast]

/-- `QCTAnalysis.get_publishable_plots` (ct.py lines 158-229): one report
image per present module, in module order. `matplotlib.pyplot` is imported
under the function-local name `plt` only inside the ctp404 branch (line
169), so whenever ctp404 is absent, the first later branch that runs
references the unassigned local `plt` (`plt.subplots` at line 178,
`plt.savefig` at line 200, `plt.subplots` at line 208) and raises. -/
def get_publishable_plots (ph : PhantomObj) : Except PyErr (List PlotModule) :=
  let plt_bound : Bool := ph.ctp404.isSome
  let plots404 : List PlotModule :=
    match ph.ctp404 with
    | some _ => [PlotModule.hu_linearity]
    | none => []
  match publishable_486 plt_bound ph.ctp486 with
  | Except.error e => Except.error e
  | Except.ok p486 =>
    match publishable_528 plt_bound ph.ctp528 with
    | Except.error e => Except.error e
    | Except.ok p528 =>
      match publishable_515 plt_bound ph.ctp515 with
      | Except.error e => Except.error e
      | Except.ok p515 => Except.ok (plots404 ++ p486 ++ p528 ++ p515)

end QCTAnalysis

/-- The Qt signals `QCTAnalysisWorker` can emit, with their payloads; the
results dictionary carries the summary rows and the `QCTAnalysis` wrapper of
the analyzed phantom. -/
inductive Event where
  | analysis_progress (msg : String)
  | analysis_results_ready (summary_text : List Row) (ct_analysis_obj : PhantomObj)
  | thread_finished
  | analysis_failed (msg : String)
deriving DecidableEq

/-- Whether an event is a progress signal. -/
def Event.isProgress : Event → Bool
  | .analysis_progress _ => true
  | _ => false

/-- Whether an event is the results-ready signal. -/
def Event.isResult : Event → Bool
  | .analysis_results_ready _ _ => true
  | _ => false

/-- Whether an event is the terminal finished signal. -/
def Event.isFinished : Event → Bool
  | .thread_finished => true
  | _ => false

/-- Whether an event is the failure signal. -/
def Event.isFailure : Event → Bool
  | .analysis_failed _ => true
  | _ => false

/-- The external pylinac calls the worker makes: `CatPhanXXX.from_zip(path)`
and `phantom.analyze()` (the analyzed object also answers `results_data()`,
kept as a field of the analyzed object). Either call may raise. -/
structure Env where
  from_zip : CatPhanClass → String → Except PyErr PhantomObj
  analyze_call : PhantomObj → Except PyErr PhantomObj

/-- Whether the worker's run ended without re-raising. -/
def exceptIsOk (e : Except PyErr Unit) : Bool :=
  match e with
  | .ok _ => true
  | .error _ => false

namespace QCTAnalysisWorker

/-- `QCTAnalysisWorker.analyze` (ct.py lines 247-335): the ordered list of
emitted signals together with the final outcome. The whole body runs under
one `try`: any raise is caught, a single `analysis_failed` signal carrying
`traceback.format_exception_only(err)[-1]` is emitted, then
`thread_finished`, and the exception is re-raised (the `error` outcome). -/
def analyze (env : Env) (path : String) (phantom_type : PhantomTypeVal) :
    List Event × Except PyErr Unit :=
  match env.from_zip (resolve_phantom_class phantom_type) path with
  | Except.error err =>
    ([Event.analysis_progress "Loading CT dataset...",
      Event.analysis_failed (formatExceptionOnlyLast err),
      Event.thread_finished], Except.error err)
  | Except.ok ph =>
    match env.analyze_call ph with
    | Except.error err =>
      ([Event.analysis_progress "Loading CT dataset...",
        Event.analysis_progress "Analyzing CT dataset...",
        Event.analysis_failed (formatExceptionOnlyLast err),
        Event.thread_finished], Except.error err)
    | Except.ok ph2 =>
      match build_summary_text phantom_type.value ph2.results_data with
      | Except.error err =>
        ([Event.analysis_progress "Loading CT dataset...",
          Event.analysis_progress "Analyzing CT dataset...",
          Event.analysis_failed (formatExceptionOnlyLast err),
          Event.thread_finished], Except.error err)
      | Except.ok rows =>
        ([Event.analysis_progress "Loading CT dataset...",
          Event.analysis_progress "Analyzing CT dataset...",
          Event.analysis_results_ready rows ph2,
          Event.thread_finished], Except.ok ())

end QCTAnalysisWorker

/-- The cached results dictionary attached to a dataset item:
`{"summary_text": ..., "ct_analysis_obj": ...}`. -/
structure AnalysisData where
  summary_text : List Row
  ct_analysis_obj : PhantomObj
deriving DecidableEq

/-- One entry of the dataset list: a file path plus the optional cached
analysis result (`itemData` in `add_dataset`, ct_widgets.py lines 218-221). -/
structure DatasetItem where
  file_path : String
  analysis_data : Option AnalysisData
deriving DecidableEq

/-- The analysis-state labels of `AnalysisInfoLabel`. -/
inductive AnalysisInfoState where
  | IDLE
  | IN_PROGRESS
  | SUCCESS
  | FAILURE
deriving DecidableEq

/-- The mutable state of `QCTAnalysisWorksheet` that the failure handler can
reach: the dataset list with each item's cached result, the selection, the
run-related widget state, and the recorded analysis state and message. -/
structure WorksheetState where
  dataset_items : List DatasetItem
  selected_dataset : List DatasetItem
  analyzeBtnText : String
  analyzeBtnEnabled : Bool
  addDatasetBtnEnabled : Bool
  advancedViewBtnEnabled : Bool
  genReportBtnEnabled : Bool
  progressBarVisible : Bool
  messageLabelVisible : Bool
  analysis_in_progress : Bool
  analysis_state : AnalysisInfoState
  analysis_message : Option String
deriving DecidableEq

namespace QCTAnalysisWorksheet

/-- `QCTAnalysisWorksheet.analysis_failed` (ct_widgets.py lines 340-362):
resets the run-related widget state, records the failure state and message,
and shows a modal error dialog (display only, not part of the state). It
never touches the dataset list, the selection, or any item's cached
`analysis_data`. -/
def analysis_failed (st : WorksheetState) (error_message : String) : WorksheetState :=
  { st with
    analyzeBtnText := "Analyze CT dataset"
    analyzeBtnEnabled := true
    addDatasetBtnEnabled := true
    progressBarVisible := false
    messageLabelVisible := false
    analysis_in_progress := false
    analysis_state := AnalysisInfoState.FAILURE
    analysis_message := some error_message }

end QCTAnalysisWorksheet

/-- The report document `core.tools.report.SimpleReport` as
`generate_report` fills it: a title, a date, named tables and named images. -/
structure SimpleReport where
  title : String
  date : String
  tables : List (String × List Row)
  images : List (String × PlotModule)
deriving DecidableEq

namespace QCTAnalysisWorksheet

/-- Core of `QCTAnalysisWorksheet.generate_report` (ct_widgets.py lines
428-476), after its guards (a selected dataset with cached analysis data and
a chosen save path): the table rows are the cached `summary_text` filtered
to rows of length two, added under "Analysis Results"; then one image per
publishable plot is added. Writing the file and opening a viewer are outside
the model. -/
def generate_report (date : String) (data : AnalysisData) : Except PyErr SimpleReport :=
  let summary_table := data.summary_text.filter (fun row => row.length == 2)
  match QCTAnalysis.get_publishable_plots data.ct_analysis_obj with
  | Except.error e => Except.error e
  | Except.ok plot_images =>
    Except.ok
      { title := "CT Analysis Report"
        date := date
        tables := [("Analysis Results", summary_table)]
        images := plot_images.enum.map (fun ip => ("Plot " ++ toString (ip.1 + 1), ip.2)) }

end QCTAnalysisWorksheet

/-! Concrete objects used by the witnesses and counterexamples below. -/

def emptyResultsData : ResultsData :=
  { hu_linearity := none, uniformity := none, uniformity_index := none,
    mtf := none, low_contrast := none, low_contrast_visibility := none }

def emptyPhantomObj : PhantomObj :=
  { ctp404 := none, ctp486 := none, ctp528 := none, ctp515 := none,
    results_data := emptyResultsData }

def emptySummaryRows : List Row :=
  [["Phantom Type:", "CatPhan 504"], blankRow, blankRow, blankRow, blankRow]

def badZipErr : PyErr :=
  { firstLines := ["Traceback (most recent call last):"],
    lastLine := "zipfile.BadZipFile: File is not a zip file" }

def failingEnv : Env :=
  { from_zip := fun _ _ => Except.error badZipErr
    analyze_call := fun ph => Except.ok ph }

def uniformityOnlyRois : List (String × UniformityRoi) :=
  [("Top", ⟨mkRat 1002 10⟩), ("Right", ⟨mkRat 1010 10⟩), ("Bottom", ⟨mkRat 990 10⟩),
   ("Left", ⟨mkRat 1000 10⟩), ("Center", ⟨mkRat 1000 10⟩)]

def sampleMTFData : MTFData :=
  { mtf := [mkRat 1 1, mkRat 1 2, mkRat 1 10], lp_mm := [mkRat 1 10, mkRat 1 2, mkRat 1 1] }

def phantom_486_528_only : PhantomObj :=
  { ctp404 := none
    ctp486 := some { rois := some uniformityOnlyRois }
    ctp528 := some { mtf := some sampleMTFData }
    ctp515 := none
    results_data := emptyResultsData }

def missing_nominal_data : ResultsData :=
  { hu_linearity := some [("Acrylic", { value := some (mkRat 1202 10), nominal := none })],
    uniformity := none, uniformity_index := none, mtf := none,
    low_contrast := none, low_contrast_visibility := none }

def sparse_uniformity_data : ResultsData :=
  { hu_linearity := none,
    uniformity := some [("Top", mkRat 1002 10)],
    uniformity_index := none,
    mtf := none, low_contrast := none, low_contrast_visibility := none }

def fullResultsData : ResultsData :=
  { hu_linearity := some [
      ("Air", { value := some (mkRat (-9982) 10), nominal := some (mkRat (-1000) 1) }),
      ("Acrylic", { value := some (mkRat 1202 10), nominal := some (mkRat 120 1) }),
      ("background", { value := none, nominal := none })],
    uniformity := some [("Top", mkRat 1002 10), ("Center", mkRat 100 1)],
    uniformity_index := some (mkRat 5 10),
    mtf := some [("50", mkRat 107 100), ("10", mkRat 183 100)],
    low_contrast := some [("1", mkRat 1234567 10000000), ("2", mkRat 25 10000)],
    low_contrast_visibility := some (mkRat 345 100) }

def fullSummaryRows : List Row :=
  [["Phantom Type:", "CatPhan 504"], ["", ""],
   ["HU Linearity:", ""],
   ["  Air:", "-998.20 HU (Expected: -1000.00 HU)"],
   ["  Acrylic:", "120.20 HU (Expected: 120.00 HU)"], ["", ""],
   ["HU Uniformity:", ""], ["  Top:", "100.20 HU"], ["  Center:", "100.00 HU"],
   ["Uniformity Index:", "0.50"], ["", ""],
   ["Spatial Resolution:", ""], ["  MTF 50%:", "1.07 lp/mm"], ["  MTF 10%:", "1.83 lp/mm"],
   ["", ""],
   ["Low Contrast:", ""], ["  ROI 1:", "0.1235"], ["  ROI 2:", "0.0025"],
   ["Low Contrast Visibility:", "3.4500"]]

def reportFromEmpty : SimpleReport :=
  { title := "CT Analysis Report", date := "2024-01-01",
    tables := [("Analysis Results", emptySummaryRows)], images := [] }

/-- Decomposition of a successful summary: the rows are the header, a blank,
then the four module blocks each followed (except the last) by a blank. -/
theorem build_summary_text_shape (ptv : String) (d : ResultsData) (rows : List Row)
    (h : build_summary_text ptv d = Except.ok rows) :
    ∃ lin, hu_linearity_block d = Except.ok lin ∧
      rows = (["Phantom Type:", ptv]) :: blankRow ::
        (lin ++ blankRow ::
          (uniformity_block d ++ blankRow ::
            (mtf_block d ++ blankRow :: low_contrast_block d))) := by
  unfold build_summary_text at h
  cases hb : hu_linearity_block d with
  | error e => rw [hb] at h; exact absurd h (by simp)
  | ok lin =>
    rw [hb] at h
    exact ⟨lin, rfl, (Except.ok.inj h).symm⟩

/-- Every HU-linearity material row has exactly two cells. -/
theorem hu_linearity_rows_len (l : List (String × LinearityEntry)) (rows : List Row)
    (h : hu_linearity_rows l = Except.ok rows) : ∀ r ∈ rows, r.length = 2 := by
  induction l generalizing rows with
  | nil =>
    intro r hr
    simp only [hu_linearity_rows] at h
    cases h
    simp at hr
  | cons hd tl ih =>
    obtain ⟨material, values⟩ := hd
    intro r hr
    simp only [hu_linearity_rows] at h
    by_cases hm : material = "background"
    · rw [if_neg (by simp [hm])] at h
      exact ih rows h r hr
    · rw [if_pos (by simp [hm])] at h
      cases hv : getAttr "value" values.value with
      | error e => rw [hv] at h; exact absurd h (by simp)
      | ok v =>
        rw [hv] at h
        cases hn : getAttr "nominal" values.nominal with
        | error e => rw [hn] at h; exact absurd h (by simp)
        | ok n =>
          rw [hn] at h
          cases ht : hu_linearity_rows tl with
          | error e => rw [ht] at h; exact absurd h (by simp)
          | ok tail =>
            rw [ht] at h
            cases h
            cases hr with
            | head => rfl
            | tail _ hmem => exact ih tail ht r hmem

/-- Every row of the HU-linearity block has exactly two cells. -/
theorem hu_linearity_block_len (d : ResultsData) (lin : List Row)
    (h : hu_linearity_block d = Except.ok lin) : ∀ r ∈ lin, r.length = 2 := by
  unfold hu_linearity_block at h
  split at h
  · cases h; simp
  · rename_i entries heq
    split at h
    · exact absurd h (by simp)
    · rename_i rows hrows
      cases h
      intro r hr
      rw [List.mem_cons] at hr
      rcases hr with rfl | hr
      · rfl
      · exact hu_linearity_rows_len entries rows hrows r hr

/-- Every row of the uniformity block has exactly two cells. -/
theorem uniformity_block_len (d : ResultsData) : ∀ r ∈ uniformity_block d, r.length = 2 := by
  intro r hr
  unfold uniformity_block at hr
  split at hr
  · simp at hr
  · rename_i items heq
    simp only [List.mem_cons, List.mem_append, List.mem_map] at hr
    rcases hr with rfl | ⟨a, ha, rfl⟩ | hr
    · rfl
    · rfl
    · split at hr
      · rename_i ui hui
        simp only [List.mem_singleton] at hr
        subst hr; rfl
      · simp at hr

/-- Every row of the spatial-resolution block has exactly two cells. -/
theorem mtf_block_len (d : ResultsData) : ∀ r ∈ mtf_block d, r.length = 2 := by
  intro r hr
  unfold mtf_block at hr
  split at hr
  · simp at hr
  · rename_i items heq
    simp only [List.mem_cons, List.mem_map] at hr
    rcases hr with rfl | ⟨a, ha, rfl⟩
    · rfl
    · rfl

/-- Every row of the low-contrast block has exactly two cells. -/
theorem low_contrast_block_len (d : ResultsData) : ∀ r ∈ low_contrast_block d, r.length = 2 := by
  intro r hr
  unfold low_contrast_block at hr
  split at hr
  · simp at hr
  · rename_i items heq
    simp only [List.mem_cons, List.mem_append, List.mem_map] at hr
    rcases hr with rfl | ⟨a, ha, rfl⟩ | hr
    · rfl
    · rfl
    · split at hr
      · rename_i v hv
        simp only [List.mem_singleton] at hr
        subst hr; rfl
      · simp at hr

/-- Every row of a successful summary has exactly two cells. -/
theorem build_summary_text_len (ptv : String) (d : ResultsData) (rows : List Row)
    (h : build_summary_text ptv d = Except.ok rows) : ∀ r ∈ rows, r.length = 2 := by
  obtain ⟨lin, hlin, rfl⟩ := build_summary_text_shape ptv d rows h
  intro r hr
  simp only [List.mem_cons, List.mem_append] at hr
  rcases hr with rfl | rfl | hr | rfl | hr | rfl | hr | rfl | hr
  · rfl
  · rfl
  · exact hu_linearity_block_len d lin hlin r hr
  · rfl
  · exact uniformity_block_len d r hr
  · rfl
  · exact mtf_block_len d r hr
  · rfl
  · exact low_contrast_block_len d r hr

/-- When every non-background linearity entry carries both its fields, the
row builder cannot raise. -/
theorem hu_linearity_rows_total (l : List (String × LinearityEntry))
    (hl : ∀ e ∈ l, e.1 ≠ "background" → e.2.value.isSome ∧ e.2.nominal.isSome) :
    ∃ rows, hu_linearity_rows l = Except.ok rows := by
  induction l with
  | nil => exact ⟨[], rfl⟩
  | cons hd tl ih =>
    obtain ⟨material, values⟩ := hd
    obtain ⟨tail, htail⟩ := ih (fun e he hb => hl e (List.mem_cons_of_mem _ he) hb)
    by_cases hm : material = "background"
    · refine ⟨tail, ?_⟩
      simp only [hu_linearity_rows]
      rw [if_neg (by simp [hm])]
      exact htail
    · have hvn := hl (material, values) (List.mem_cons_self _ _) hm
      obtain ⟨v, hv⟩ := Option.isSome_iff_exists.mp hvn.1
      obtain ⟨n, hn⟩ := Option.isSome_iff_exists.mp hvn.2
      refine ⟨["  " ++ material ++ ":",
        formatFixed v 2 ++ " HU (Expected: " ++ formatFixed n 2 ++ " HU)"] :: tail, ?_⟩
      simp only [hu_linearity_rows]
      rw [if_pos (by simp [hm])]
      rw [hv, hn, htail]
      rfl

/-- When every non-background linearity entry carries both its fields, the
whole summary builder succeeds. -/
theorem build_summary_text_total (ptv : String) (d : ResultsData)
    (hl : ∀ e ∈ d.hu_linearity.getD [], e.1 ≠ "background" →
      e.2.value.isSome ∧ e.2.nominal.isSome) :
    ∃ lin rows, hu_linearity_block d = Except.ok lin ∧
      build_summary_text ptv d = Except.ok rows := by
  have hblock : ∃ lin, hu_linearity_block d = Except.ok lin := by
    unfold hu_linearity_block
    cases hd : d.hu_linearity with
    | none => exact ⟨[], rfl⟩
    | some entries =>
      obtain ⟨rows, hrows⟩ := hu_linearity_rows_total entries (by rw [hd] at hl; exact hl)
      refine ⟨["HU Linearity:", ""] :: rows, ?_⟩
      show (match hu_linearity_rows entries with
        | Except.error e => Except.error e
        | Except.ok rows => Except.ok (["HU Linearity:", ""] :: rows)) =
        Except.ok (["HU Linearity:", ""] :: rows)
      rw [hrows]
  obtain ⟨lin, hlin⟩ := hblock
  refine ⟨lin, ["Phantom Type:", ptv] :: blankRow ::
    (lin ++ blankRow :: (uniformity_block d ++ blankRow ::
      (mtf_block d ++ blankRow :: low_contrast_block d))), hlin, ?_⟩
  unfold build_summary_text
  rw [hlin]

/-- An absent hu_linearity group contributes no rows. -/
theorem hu_linearity_block_none (d : ResultsData) (h : d.hu_linearity = none) :
    hu_linearity_block d = Except.ok [] := by
  unfold hu_linearity_block
  rw [h]

/-- An absent uniformity group contributes no rows. -/
theorem uniformity_block_none (d : ResultsData) (h : d.uniformity = none) :
    uniformity_block d = [] := by
  unfold uniformity_block
  rw [h]

/-- An absent mtf group contributes no rows. -/
theorem mtf_block_none (d : ResultsData) (h : d.mtf = none) :
    mtf_block d = [] := by
  unfold mtf_block
  rw [h]

/-- An absent low_contrast group contributes no rows. -/
theorem low_contrast_block_none (d : ResultsData) (h : d.low_contrast = none) :
    low_contrast_block d = [] := by
  unfold low_contrast_block
  rw [h]

/-- The worker trace when `from_zip` raises: one progress signal, the failure
carrying the last formatted line, then the terminal finished signal. -/
theorem analyze_load_error (env : Env) (path : String) (pt : PhantomTypeVal) (err : PyErr)
    (h1 : env.from_zip (resolve_phantom_class pt) path = Except.error err) :
    QCTAnalysisWorker.analyze env path pt =
      ([Event.analysis_progress "Loading CT dataset...",
        Event.analysis_failed (formatExceptionOnlyLast err),
        Event.thread_finished], Except.error err) := by
  unfold QCTAnalysisWorker.analyze
  simp only [h1]

/-- The worker trace when `phantom.analyze()` raises: two progress signals,
the failure, then the terminal finished signal. -/
theorem analyze_call_error (env : Env) (path : String) (pt : PhantomTypeVal)
    (ph : PhantomObj) (err : PyErr)
    (h1 : env.from_zip (resolve_phantom_class pt) path = Except.ok ph)
    (h2 : env.analyze_call ph = Except.error err) :
    QCTAnalysisWorker.analyze env path pt =
      ([Event.analysis_progress "Loading CT dataset...",
        Event.analysis_progress "Analyzing CT dataset...",
        Event.analysis_failed (formatExceptionOnlyLast err),
        Event.thread_finished], Except.error err) := by
  unfold QCTAnalysisWorker.analyze
  simp only [h1, h2]

/-- The worker trace when summary building raises: two progress signals, the
failure, then the terminal finished signal. -/
theorem analyze_summary_error (env : Env) (path : String) (pt : PhantomTypeVal)
    (ph ph2 : PhantomObj) (err : PyErr)
    (h1 : env.from_zip (resolve_phantom_class pt) path = Except.ok ph)
    (h2 : env.analyze_call ph = Except.ok ph2)
    (h3 : build_summary_text pt.value ph2.results_data = Except.error err) :
    QCTAnalysisWorker.analyze env path pt =
      ([Event.analysis_progress "Loading CT dataset...",
        Event.analysis_progress "Analyzing CT dataset...",
        Event.analysis_failed (formatExceptionOnlyLast err),
        Event.thread_finished], Except.error err) := by
  unfold QCTAnalysisWorker.analyze
  simp only [h1, h2, h3]

/-- The worker trace of a successful run: two progress signals, the single
results signal, then the terminal finished signal. -/
theorem analyze_success (env : Env) (path : String) (pt : PhantomTypeVal)
    (ph ph2 : PhantomObj) (rows : List Row)
    (h1 : env.from_zip (resolve_phantom_class pt) path = Except.ok ph)
    (h2 : env.analyze_call ph = Except.ok ph2)
    (h3 : build_summary_text pt.value ph2.results_data = Except.ok rows) :
    QCTAnalysisWorker.analyze env path pt =
      ([Event.analysis_progress "Loading CT dataset...",
        Event.analysis_progress "Analyzing CT dataset...",
        Event.analysis_results_ready rows ph2,
        Event.thread_finished], Except.ok ()) := by
  unfold QCTAnalysisWorker.analyze
  simp only [h1, h2, h3]

/-- The last element of a list ending in a singleton. -/
theorem getLastD_append_single (l : List String) (x d : String) :
    (l ++ [x]).getLastD d = x := by
  induction l generalizing d with
  | nil => rfl
  | cons a t ih =>
    rw [List.cons_append, List.getLastD_cons]
    exact ih a

/-- Indexing the formatted exception with `[-1]` yields exactly its final
line. -/
theorem formatExceptionOnlyLast_eq (e : PyErr) : formatExceptionOnlyLast e = e.lastLine :=
  getLastD_append_single e.firstLines e.lastLine ""

/-- Claim C1: for every run of the analysis worker's analyze operation,
exactly one of a Result event or a Failure event is emitted, followed by
exactly one terminal Finished event; progress events may be emitted zero or
more times, all before that terminal pair; no Failure event is emitted on a
successful run and no Result event is emitted on a failing run. -/
theorem claim_C1_worker_event_protocol (env : Env) (path : String) (pt : PhantomTypeVal) :
    ((QCTAnalysisWorker.analyze env path pt).1.countP Event.isResult) +
      ((QCTAnalysisWorker.analyze env path pt).1.countP Event.isFailure) = 1 ∧
    (QCTAnalysisWorker.analyze env path pt).1.countP Event.isFinished = 1 ∧
    (∃ ps last, (QCTAnalysisWorker.analyze env path pt).1 = ps ++ [last, Event.thread_finished] ∧
      (∀ e ∈ ps, Event.isProgress e = true) ∧
      (Event.isResult last = true ∨ Event.isFailure last = true)) ∧
    (exceptIsOk (QCTAnalysisWorker.analyze env path pt).2 = true →
      (QCTAnalysisWorker.analyze env path pt).1.countP Event.isFailure = 0 ∧
      (QCTAnalysisWorker.analyze env path pt).1.countP Event.isResult = 1) ∧
    (exceptIsOk (QCTAnalysisWorker.analyze env path pt).2 = false →
      (QCTAnalysisWorker.analyze env path pt).1.countP Event.isResult = 0 ∧
      (QCTAnalysisWorker.analyze env path pt).1.countP Event.isFailure = 1) := by
  cases h1 : env.from_zip (resolve_phantom_class pt) path with
  | error err =>
    rw [analyze_load_error env path pt err h1]
    refine ⟨by simp [Event.isResult, Event.isFailure], by simp [Event.isFinished],
      ⟨[Event.analysis_progress "Loading CT dataset..."],
        Event.analysis_failed (formatExceptionOnlyLast err), rfl,
        by simp [Event.isProgress], Or.inr rfl⟩,
      by simp [exceptIsOk], by simp [Event.isResult, Event.isFailure]⟩
  | ok ph =>
    cases h2 : env.analyze_call ph with
    | error err =>
      rw [analyze_call_error env path pt ph err h1 h2]
      refine ⟨by simp [Event.isResult, Event.isFailure], by simp [Event.isFinished],
        ⟨[Event.analysis_progress "Loading CT dataset...",
          Event.analysis_progress "Analyzing CT dataset..."],
          Event.analysis_failed (formatExceptionOnlyLast err), rfl,
          by simp [Event.isProgress], Or.inr rfl⟩,
        by simp [exceptIsOk], by simp [Event.isResult, Event.isFailure]⟩
    | ok ph2 =>
      cases h3 : build_summary_text pt.value ph2.results_data with
      | error err =>
        rw [analyze_summary_error env path pt ph ph2 err h1 h2 h3]
        refine ⟨by simp [Event.isResult, Event.isFailure], by simp [Event.isFinished],
          ⟨[Event.analysis_progress "Loading CT dataset...",
            Event.analysis_progress "Analyzing CT dataset..."],
            Event.analysis_failed (formatExceptionOnlyLast err), rfl,
            by simp [Event.isProgress], Or.inr rfl⟩,
          by simp [exceptIsOk], by simp [Event.isResult, Event.isFailure]⟩
      | ok rows =>
        rw [analyze_success env path pt ph ph2 rows h1 h2 h3]
        refine ⟨by simp [Event.isResult, Event.isFailure], by simp [Event.isFinished],
          ⟨[Event.analysis_progress "Loading CT dataset...",
            Event.analysis_progress "Analyzing CT dataset..."],
            Event.analysis_results_ready rows ph2, rfl,
            by simp [Event.isProgress], Or.inl rfl⟩,
          by simp [Event.isResult, Event.isFailure], by simp [exceptIsOk]⟩

/-- Counterexample to claim C2: for a concrete value outside the closed
four-member enumeration, the code's dispatch silently produces the
CatPhan504 analyzer class instead of failing, while the spec's registry
contract (modelled separately) would fail with UnsupportedPhantom. -/
theorem claim_C2_counterexample :
    resolve_phantom_class (PhantomTypeVal.nonEnum "not a phantom kind") =
      CatPhanClass.CatPhan504 ∧
    registry_resolve_spec (PhantomTypeVal.nonEnum "not a phantom kind") =
      Except.error (UnsupportedPhantom.mk "not a phantom kind") :=
  ⟨rfl, rfl⟩

/-- Claim C2 (amended): resolving a phantom kind maps each of the four
supported phantom kinds to a distinct, non-null analyzer class, and every
value outside the closed enumeration silently resolves to the default
CatPhan504 class rather than failing with UnsupportedPhantom. -/
theorem claim_C2_registry_amended :
    resolve_phantom_class (PhantomTypeVal.member PHANTOM.CATPHAN_503) = CatPhanClass.CatPhan503 ∧
    resolve_phantom_class (PhantomTypeVal.member PHANTOM.CATPHAN_504) = CatPhanClass.CatPhan504 ∧
    resolve_phantom_class (PhantomTypeVal.member PHANTOM.CATPHAN_600) = CatPhanClass.CatPhan600 ∧
    resolve_phantom_class (PhantomTypeVal.member PHANTOM.CATPHAN_604) = CatPhanClass.CatPhan604 ∧
    ([PHANTOM.CATPHAN_503, PHANTOM.CATPHAN_504, PHANTOM.CATPHAN_600,
        PHANTOM.CATPHAN_604].map
      (fun p => resolve_phantom_class (PhantomTypeVal.member p))).Nodup ∧
    (∀ s, resolve_phantom_class (PhantomTypeVal.nonEnum s) = CatPhanClass.CatPhan504) :=
  ⟨rfl, rfl, rfl, rfl, by decide, fun s => rfl⟩

/-- Claim C3 (code bug): on a source object with only the uniformity and MTF
modules present (ctp486 and ctp528 present, ctp404 and ctp515 absent), the
interactive plotting path populates exactly the two plots (uniformity, then
MTF), but `get_publishable_plots` raises UnboundLocalError instead of
returning two images, because `matplotlib.pyplot` is imported as the local
name `plt` only inside the ctp404 branch. -/
theorem claim_C3_plt_import_bug :
    QCTAnalysis.qplot_analyzed_image phantom_486_528_only =
      Except.ok [PlotModule.uniformity, PlotModule.mtf] ∧
    QCTAnalysis.get_publishable_plots phantom_486_528_only =
      Except.error unboundLocalPlt :=
  ⟨rfl, rfl⟩

/-- Counterexample to claim C4: a present hu_linearity group holding an
entry with no `nominal` field makes the summary builder raise an
AttributeError, aborting the run. -/
theorem claim_C4_counterexample :
    build_summary_text "CatPhan 504" missing_nominal_data =
      Except.error (attributeError "nominal") := by
  rfl

/-- Claim C4 (amended): building the summary rows omits a module's block
entirely when that module's field group is absent and never raises in that
case; a present uniformity group with no uniformity_index is tolerated; but
every non-background linearity entry must carry both its `value` and
`nominal` fields — a missing one aborts the run. -/
theorem claim_C4_defensive_extraction (ptv : String) (d : ResultsData)
    (hl : ∀ e ∈ d.hu_linearity.getD [], e.1 ≠ "background" →
      e.2.value.isSome ∧ e.2.nominal.isSome) :
    ∃ lin rows, hu_linearity_block d = Except.ok lin ∧
      build_summary_text ptv d = Except.ok rows ∧
      (d.hu_linearity = none → lin = []) ∧
      (d.uniformity = none → uniformity_block d = []) ∧
      (d.mtf = none → mtf_block d = []) ∧
      (d.low_contrast = none → low_contrast_block d = []) ∧
      rows = (["Phantom Type:", ptv]) :: blankRow ::
        (lin ++ blankRow ::
          (uniformity_block d ++ blankRow ::
            (mtf_block d ++ blankRow :: low_contrast_block d))) := by
  obtain ⟨lin, rows, hlin, hrows⟩ := build_summary_text_total ptv d hl
  obtain ⟨lin2, hlin2, hshape⟩ := build_summary_text_shape ptv d rows hrows
  rw [hlin] at hlin2
  injection hlin2 with hlin2
  subst hlin2
  refine ⟨lin, rows, hlin, hrows, ?_, uniformity_block_none d, mtf_block_none d,
    low_contrast_block_none d, hshape⟩
  intro h0
  rw [hu_linearity_block_none d h0] at hlin
  injection hlin with hlin
  exact hlin.symm

/-- Witness for claim C4 (amended): a results object whose only present
group is a uniformity block without a uniformity index. -/
theorem claim_C4_witness :
    ∃ lin rows, hu_linearity_block sparse_uniformity_data = Except.ok lin ∧
      build_summary_text "CatPhan 504" sparse_uniformity_data = Except.ok rows ∧
      (sparse_uniformity_data.hu_linearity = none → lin = []) ∧
      (sparse_uniformity_data.uniformity = none →
        uniformity_block sparse_uniformity_data = []) ∧
      (sparse_uniformity_data.mtf = none → mtf_block sparse_uniformity_data = []) ∧
      (sparse_uniformity_data.low_contrast = none →
        low_contrast_block sparse_uniformity_data = []) ∧
      rows = (["Phantom Type:", "CatPhan 504"]) :: blankRow ::
        (lin ++ blankRow ::
          (uniformity_block sparse_uniformity_data ++ blankRow ::
            (mtf_block sparse_uniformity_data ++ blankRow ::
              low_contrast_block sparse_uniformity_data))) :=
  claim_C4_defensive_extraction "CatPhan 504" sparse_uniformity_data (by decide)

/-- Claim C5: for every successful run, the summary rows are produced in the
deterministic order: phantom type header, blank separator, HU linearity
block, blank, uniformity block followed by its uniformity index, blank,
spatial-resolution (MTF) block, blank, low-contrast block followed by its
visibility score, with each row a (label, value) pair. -/
theorem claim_C5_summary_row_order (ptv : String) (d : ResultsData) (rows : List Row)
    (h : build_summary_text ptv d = Except.ok rows) :
    ∃ lin, hu_linearity_block d = Except.ok lin ∧
      rows = (["Phantom Type:", ptv]) :: blankRow ::
        (lin ++ blankRow ::
          (uniformity_block d ++ blankRow ::
            (mtf_block d ++ blankRow :: low_contrast_block d))) ∧
      (∀ r ∈ rows, r.length = 2) ∧
      (∀ us ui, d.uniformity = some us → d.uniformity_index = some ui →
        uniformity_block d = (["HU Uniformity:", ""]) ::
          (us.map (fun pv => ["  " ++ pv.1 ++ ":", formatFixed pv.2 2 ++ " HU"]) ++
            [["Uniformity Index:", formatFixed ui 2]])) ∧
      (∀ cs v, d.low_contrast = some cs → d.low_contrast_visibility = some v →
        low_contrast_block d = (["Low Contrast:", ""]) ::
          ((cs.map Prod.snd).enum.map
            (fun ic => ["  ROI " ++ toString (ic.1 + 1) ++ ":", formatFixed ic.2 4]) ++
            [["Low Contrast Visibility:", formatFixed v 4]])) := by
  obtain ⟨lin, hlin, hshape⟩ := build_summary_text_shape ptv d rows h
  refine ⟨lin, hlin, hshape, build_summary_text_len ptv d rows h, ?_, ?_⟩
  · intro us ui hus hui
    unfold uniformity_block
    rw [hus, hui]
  · intro cs v hcs hv
    unfold low_contrast_block
    rw [hcs, hv]

/-- Witness for claim C5: a fully populated results object and its computed
summary rows. -/
theorem claim_C5_witness :
    ∃ lin, hu_linearity_block fullResultsData = Except.ok lin ∧
      fullSummaryRows = (["Phantom Type:", "CatPhan 504"]) :: blankRow ::
        (lin ++ blankRow ::
          (uniformity_block fullResultsData ++ blankRow ::
            (mtf_block fullResultsData ++ blankRow :: low_contrast_block fullResultsData))) ∧
      (∀ r ∈ fullSummaryRows, r.length = 2) ∧
      (∀ us ui, fullResultsData.uniformity = some us →
        fullResultsData.uniformity_index = some ui →
        uniformity_block fullResultsData = (["HU Uniformity:", ""]) ::
          (us.map (fun pv => ["  " ++ pv.1 ++ ":", formatFixed pv.2 2 ++ " HU"]) ++
            [["Uniformity Index:", formatFixed ui 2]])) ∧
      (∀ cs v, fullResultsData.low_contrast = some cs →
        fullResultsData.low_contrast_visibility = some v →
        low_contrast_block fullResultsData = (["Low Contrast:", ""]) ::
          ((cs.map Prod.snd).enum.map
            (fun ic => ["  ROI " ++ toString (ic.1 + 1) ++ ":", formatFixed ic.2 4]) ++
            [["Low Contrast Visibility:", formatFixed v 4]])) :=
  claim_C5_summary_row_order "CatPhan 504" fullResultsData fullSummaryRows (by rfl)

/-- Claim C6: when any step of the load/analyze/summarize pipeline throws,
the single Failure event emitted carries exactly the last line of the
underlying error description (the final line of the exception's formatted
representation), and no partial summary rows or Result event are emitted
for that run. -/
theorem claim_C6_failure_event_payload (env : Env) (path : String) (pt : PhantomTypeVal)
    (err : PyErr) (h : (QCTAnalysisWorker.analyze env path pt).2 = Except.error err) :
    (∃ ps, (QCTAnalysisWorker.analyze env path pt).1 =
        ps ++ [Event.analysis_failed err.lastLine, Event.thread_finished] ∧
      (∀ e ∈ ps, Event.isProgress e = true)) ∧
    formatExceptionOnlyLast err = err.lastLine ∧
    (QCTAnalysisWorker.analyze env path pt).1.countP Event.isResult = 0 ∧
    (QCTAnalysisWorker.analyze env path pt).1.countP Event.isFailure = 1 := by
  cases h1 : env.from_zip (resolve_phantom_class pt) path with
  | error err0 =>
    rw [analyze_load_error env path pt err0 h1] at h ⊢
    simp only at h
    cases h
    refine ⟨⟨[Event.analysis_progress "Loading CT dataset..."],
      by rw [formatExceptionOnlyLast_eq]; rfl, by simp [Event.isProgress]⟩,
      formatExceptionOnlyLast_eq err,
      by simp [Event.isResult], by simp [Event.isFailure]⟩
  | ok ph =>
    cases h2 : env.analyze_call ph with
    | error err0 =>
      rw [analyze_call_error env path pt ph err0 h1 h2] at h ⊢
      simp only at h
      cases h
      refine ⟨⟨[Event.analysis_progress "Loading CT dataset...",
        Event.analysis_progress "Analyzing CT dataset..."],
        by rw [formatExceptionOnlyLast_eq]; rfl, by simp [Event.isProgress]⟩,
        formatExceptionOnlyLast_eq err,
        by simp [Event.isResult], by simp [Event.isFailure]⟩
    | ok ph2 =>
      cases h3 : build_summary_text pt.value ph2.results_data with
      | error err0 =>
        rw [analyze_summary_error env path pt ph ph2 err0 h1 h2 h3] at h ⊢
        simp only at h
        cases h
        refine ⟨⟨[Event.analysis_progress "Loading CT dataset...",
          Event.analysis_progress "Analyzing CT dataset..."],
          by rw [formatExceptionOnlyLast_eq]; rfl, by simp [Event.isProgress]⟩,
          formatExceptionOnlyLast_eq err,
          by simp [Event.isResult], by simp [Event.isFailure]⟩
      | ok rows =>
        rw [analyze_success env path pt ph ph2 rows h1 h2 h3] at h
        exact absurd h (by simp)

/-- Witness for claim C6: a concrete environment whose archive load throws a
BadZipFile error. -/
theorem claim_C6_witness :
    (∃ ps, (QCTAnalysisWorker.analyze failingEnv "corrupt.zip"
        (PhantomTypeVal.member PHANTOM.CATPHAN_504)).1 =
        ps ++ [Event.analysis_failed badZipErr.lastLine, Event.thread_finished] ∧
      (∀ e ∈ ps, Event.isProgress e = true)) ∧
    formatExceptionOnlyLast badZipErr = badZipErr.lastLine ∧
    (QCTAnalysisWorker.analyze failingEnv "corrupt.zip"
      (PhantomTypeVal.member PHANTOM.CATPHAN_504)).1.countP Event.isResult = 0 ∧
    (QCTAnalysisWorker.analyze failingEnv "corrupt.zip"
      (PhantomTypeVal.member PHANTOM.CATPHAN_504)).1.countP Event.isFailure = 1 :=
  claim_C6_failure_event_payload failingEnv "corrupt.zip"
    (PhantomTypeVal.member PHANTOM.CATPHAN_504) badZipErr rfl

/-- Claim C7: numeric values in the summary rows are formatted to fixed
precision — 2 decimal places for HU and lp/mm values and 4 decimal places
for contrast values — so that a linearity value of -998.6 renders as
"-998.60 HU" and a contrast value of 0.1234567 renders as "0.1235". -/
theorem claim_C7_fixed_precision :
    formatFixed (mkRat (-9986) 10) 2 ++ " HU" = "-998.60 HU" ∧
    hu_linearity_rows
      [("Acrylic", { value := some (mkRat (-9986) 10), nominal := some (mkRat (-1000) 1) })] =
      Except.ok [["  Acrylic:", "-998.60 HU (Expected: -1000.00 HU)"]] ∧
    formatFixed (mkRat 1234567 10000000) 4 = "0.1235" ∧
    low_contrast_block
      { hu_linearity := none, uniformity := none, uniformity_index := none,
        mtf := none, low_contrast := some [("1", mkRat 1234567 10000000)],
        low_contrast_visibility := none } =
      [["Low Contrast:", ""], ["  ROI 1:", "0.1235"]] ∧
    mtf_block
      { hu_linearity := none, uniformity := none, uniformity_index := none,
        mtf := some [("50", mkRat 107 100)], low_contrast := none,
        low_contrast_visibility := none } =
      [["Spatial Resolution:", ""], ["  MTF 50%:", "1.07 lp/mm"]] ∧
    uniformity_block
      { hu_linearity := none, uniformity := some [("Top", mkRat 1002 10)],
        uniformity_index := none, mtf := none, low_contrast := none,
        low_contrast_visibility := none } =
      [["HU Uniformity:", ""], ["  Top:", "100.20 HU"]] :=
  ⟨rfl, rfl, rfl, rfl, rfl, rfl⟩

/-- Claim C8: handling a run's Failure event leaves every dataset item's
cached analysis result unchanged — a result attached by a prior run remains
attached and identical and no failure marker replaces it — while the run
state and status message are updated (and the run-related widget state is
reset). -/
theorem claim_C8_failure_frame (st : WorksheetState) (msg : String) :
    (QCTAnalysisWorksheet.analysis_failed st msg).dataset_items = st.dataset_items ∧
    (∀ i, ((QCTAnalysisWorksheet.analysis_failed st msg).dataset_items.get? i).map
        (fun it => it.analysis_data) =
      (st.dataset_items.get? i).map (fun it => it.analysis_data)) ∧
    (QCTAnalysisWorksheet.analysis_failed st msg).selected_dataset = st.selected_dataset ∧
    (QCTAnalysisWorksheet.analysis_failed st msg).analysis_state = AnalysisInfoState.FAILURE ∧
    (QCTAnalysisWorksheet.analysis_failed st msg).analysis_message = some msg ∧
    (QCTAnalysisWorksheet.analysis_failed st msg).advancedViewBtnEnabled =
      st.advancedViewBtnEnabled ∧
    (QCTAnalysisWorksheet.analysis_failed st msg).genReportBtnEnabled =
      st.genReportBtnEnabled :=
  ⟨rfl, fun i => rfl, rfl, rfl, rfl, rfl, rfl⟩

/-- Claim C9: exporting a report reproduces exactly the ordered summary rows
that the summary builder produced: the row sequence passed into the
report's table equals the cached summary rows, with values and order
preserved and no row added, dropped, or reordered. -/
theorem claim_C9_report_table_roundtrip (ptv : String) (d : ResultsData) (rows : List Row)
    (date : String) (ph : PhantomObj) (rep : SimpleReport)
    (h : build_summary_text ptv d = Except.ok rows)
    (hrep : QCTAnalysisWorksheet.generate_report date
      { summary_text := rows, ct_analysis_obj := ph } = Except.ok rep) :
    rep.tables = [("Analysis Results", rows)] := by
  have hfilter : rows.filter (fun row => row.length == 2) = rows := by
    apply List.filter_eq_self.mpr
    intro r hr
    simpa using build_summary_text_len ptv d rows h r hr
  unfold QCTAnalysisWorksheet.generate_report at hrep
  cases hp : QCTAnalysis.get_publishable_plots ph with
  | error e =>
    rw [hp] at hrep
    exact absurd hrep (by simp)
  | ok plots =>
    rw [hp] at hrep
    injection hrep with hrep
    rw [← hrep]
    simp [hfilter]

/-- Witness for claim C9: the report generated from the all-absent results
object carries exactly the cached five summary rows. -/
theorem claim_C9_witness :
    reportFromEmpty.tables = [("Analysis Results", emptySummaryRows)] :=
  claim_C9_report_table_roundtrip "CatPhan 504" emptyResultsData emptySummaryRows
    "2024-01-01" emptyPhantomObj reportFromEmpty (by rfl) (by rfl)

/-- Claim C10: the blank separator rows are emitted unconditionally, not per
present module: a ("", "") row follows the phantom-type header and each of
the linearity, uniformity, and MTF positions even when the corresponding
block is absent, so a results object with all four module groups absent
yields exactly the phantom-type row followed by four blank rows. -/
theorem claim_C10_unconditional_blanks (ptv : String) (d : ResultsData) (rows : List Row)
    (h : build_summary_text ptv d = Except.ok rows) :
    (∃ lin, hu_linearity_block d = Except.ok lin ∧
      rows = (["Phantom Type:", ptv]) :: blankRow ::
        (lin ++ blankRow ::
          (uniformity_block d ++ blankRow ::
            (mtf_block d ++ blankRow :: low_contrast_block d)))) ∧
    (d.hu_linearity = none → d.uniformity = none → d.mtf = none → d.low_contrast = none →
      rows = [["Phantom Type:", ptv], blankRow, blankRow, blankRow, blankRow]) := by
  obtain ⟨lin, hlin, hshape⟩ := build_summary_text_shape ptv d rows h
  refine ⟨⟨lin, hlin, hshape⟩, ?_⟩
  intro h4 h6 h8 h5
  rw [hu_linearity_block_none d h4] at hlin
  injection hlin with hlin
  rw [hshape, ← hlin, uniformity_block_none d h6, mtf_block_none d h8,
    low_contrast_block_none d h5]
  rfl

/-- Witness for claim C10: the all-absent results object yields the header
followed by four blank rows. -/
theorem claim_C10_witness :
    (∃ lin, hu_linearity_block emptyResultsData = Except.ok lin ∧
      emptySummaryRows = (["Phantom Type:", "CatPhan 504"]) :: blankRow ::
        (lin ++ blankRow ::
          (uniformity_block emptyResultsData ++ blankRow ::
            (mtf_block emptyResultsData ++ blankRow :: low_contrast_block emptyResultsData)))) ∧
    (emptyResultsData.hu_linearity = none → emptyResultsData.uniformity = none →
      emptyResultsData.mtf = none → emptyResultsData.low_contrast = none →
      emptySummaryRows = [["Phantom Type:", "CatPhan 504"], blankRow, blankRow, blankRow,
        blankRow]) :=
  claim_C10_unconditional_blanks "CatPhan 504" emptyResultsData emptySummaryRows (by rfl)
